import Mathlib

/-!
Verification of the Chyavan behavioral-telemetry collector.

Shallow embedding of the Chyavan client library (redactor, debounce
scheduler, event buffer, delivery engine, lifecycle controller) together
with proofs settling the specification claims.  Strings from the
JavaScript source are modelled as `List Char`; JavaScript numbers that
only ever hold integers are modelled as `Int`/`Nat`, and the one place
where IEEE division matters (the scroll-percentage computation) uses an
explicit JavaScript-number model with `NaN`/infinity values over `Rat`.
-/

namespace Chyavan

/-! ## Decimal rendering of an integer (JS `${n}` template interpolation)

The source interpolates `text.length` into a template literal, which is
JavaScript's decimal `ToString` on a non-negative integer.  `digitChars`
is that conversion, implemented with explicit fuel so that it reduces in
the kernel. -/

def digitCharsAux : Nat → Nat → List Char
  | 0, _ => []
  | fuel + 1, n =>
    if n < 10 then [Nat.digitChar n]
    else digitCharsAux fuel (n / 10) ++ [Nat.digitChar (n % 10)]

/-- Decimal digit characters of `n`, most significant first. -/
def digitChars (n : Nat) : List Char := digitCharsAux (n + 1) n

theorem digitCharsAux_succ (f n : Nat) :
    digitCharsAux (f + 1) n =
      if n < 10 then [Nat.digitChar n]
      else digitCharsAux f (n / 10) ++ [Nat.digitChar (n % 10)] := rfl

theorem digitCharsAux_eq_of_lt :
    ∀ f g n : Nat, n < f → n < g → digitCharsAux f n = digitCharsAux g n := by
  intro f
  induction f with
  | zero => intro g n hf _; omega
  | succ f ih =>
    intro g n hf hg
    cases g with
    | zero => omega
    | succ g =>
      by_cases h10 : n < 10
      · simp [digitCharsAux, h10]
      · have hn : 10 ≤ n := by omega
        have hdiv : n / 10 < n := Nat.div_lt_self (by omega) (by omega)
        simp only [digitCharsAux, if_neg h10]
        rw [ih g (n / 10) (by omega) (by omega)]

/-- Unfolding equation for `digitChars`. -/
theorem digitChars_eq (n : Nat) :
    digitChars n =
      if n < 10 then [Nat.digitChar n]
      else digitChars (n / 10) ++ [Nat.digitChar (n % 10)] := by
  by_cases h10 : n < 10
  · simp [digitChars, digitCharsAux, h10]
  · have hn : 10 ≤ n := by omega
    have hdiv : n / 10 < n := Nat.div_lt_self (by omega) (by omega)
    rw [digitChars, digitCharsAux_succ, if_neg h10, if_neg h10, digitChars,
      digitCharsAux_eq_of_lt n (n / 10 + 1) (n / 10) (by omega) (by omega)]

/-- A decimal numeral for `n ≥ 2` is strictly shorter than `n` itself. -/
theorem digitChars_length_lt (n : Nat) (hn : 2 ≤ n) : (digitChars n).length < n := by
  induction n using Nat.strong_induction_on with
  | _ n ih =>
    rw [digitChars_eq]
    by_cases h10 : n < 10
    · simp [h10]; omega
    · simp only [if_neg h10, List.length_append, List.length_cons, List.length_nil]
      have hge : 10 ≤ n := by omega
      have hdiv : n / 10 < n := Nat.div_lt_self (by omega) (by omega)
      by_cases h2 : 2 ≤ n / 10
      · have := ih (n / 10) hdiv h2
        omega
      · have h1 : n / 10 = 1 := by omega
        rw [h1]
        have : (digitChars 1).length = 1 := by decide
        omega

/-! ## Redactor: `sanitizeText` (src/unnamed/part_001 lines 371-379)

```js
sanitizeText(text) {
  if (!text) return '';
  const onlyDigits = /^\d+$/;
  if (onlyDigits.test(text)) {
    return `[${text.length} digits]`;
  }
  return `[${text.length} characters]`;
}
```
-/

def sanitizeText (text : List Char) : List Char :=
  if text = [] then []
  else if text.all Char.isDigit then
    '[' :: digitChars text.length ++ ' ' :: "digits]".toList
  else
    '[' :: digitChars text.length ++ ' ' :: "characters]".toList

/-- The variant in `src/src/index.js` lines 24-32, which renders
`Typed [${n}] digits` / `Typed [${n}] characters`. -/
def sanitizeTextJs (text : List Char) : List Char :=
  if text = [] then []
  else if text.all Char.isDigit then
    "Typed [".toList ++ digitChars text.length ++ "] digits".toList
  else
    "Typed [".toList ++ digitChars text.length ++ "] characters".toList

/-! ## JavaScript `String.prototype.includes` / `startsWith` on char lists -/

/-- Embedding of JavaScript `s.includes(pat)` as `jsIncludes s pat`: `pat` occurs as a
contiguous substring of `s`. -/
def jsIncludes (s pat : List Char) : Bool :=
  match s with
  | [] => pat.isEmpty
  | _ :: rest => pat.isPrefixOf s || jsIncludes rest pat

theorem jsIncludes_iff (s pat : List Char) : jsIncludes s pat = true ↔ pat <:+: s := by
  induction s with
  | nil =>
    simp [jsIncludes, List.isEmpty_iff]
  | cons a rest ih =>
    simp only [jsIncludes, Bool.or_eq_true, List.isPrefixOf_iff_prefix, ih]
    rw [List.infix_cons_iff]

-- sanity checks on concrete inputs
example : sanitizeText ("4111111111111111".toList) = "[16 digits]".toList := by decide
example : sanitizeText ("hi there".toList) = "[8 characters]".toList := by decide
example : sanitizeText [] = [] := by decide
example : jsIncludes ("[1 digits]".toList) ['1'] = true := by decide

/-- The redactor's output on a non-empty input always starts with `'['`,
hence is itself non-empty and not all-decimal-digits. -/
theorem sanitizeText_shape (s : List Char) (h : s ≠ []) :
    ∃ t, (t = "digits]".toList ∨ t = "characters]".toList) ∧
      sanitizeText s = '[' :: digitChars s.length ++ ' ' :: t := by
  by_cases hd : s.all Char.isDigit
  · exact ⟨"digits]".toList, Or.inl rfl, by simp [sanitizeText, h, hd]⟩
  · exact ⟨"characters]".toList, Or.inr rfl, by simp [sanitizeText, h, hd]⟩

theorem countP_isDigit_sanitizeText (s : List Char) (h : s ≠ []) :
    (sanitizeText s).countP Char.isDigit ≤ (digitChars s.length).length := by
  obtain ⟨t, ht, hs⟩ := sanitizeText_shape s h
  rw [hs]
  have htz : t.countP Char.isDigit = 0 := by
    rcases ht with rfl | rfl <;> decide
  have hlb : Char.isDigit '[' = false := by decide
  have hsp : Char.isDigit ' ' = false := by decide
  simp [List.countP_cons, hlb, hsp, List.countP_append, htz]
  exact List.countP_le_length _

/-- C1 (counterexample): the claim "no substring of the original input ever
appears in the descriptor" is false: for the input `"1"` the descriptor
`"[1 digits]"` contains the original text `"1"` itself as a substring. -/
theorem sanitizeText_substring_leak :
    sanitizeText ['1'] = "[1 digits]".toList ∧
    jsIncludes (sanitizeText ['1']) ['1'] = true := by
  constructor <;> decide

/-- C1 (amended): `redact` maps empty input to the empty string, an
all-decimal-digit input to the length-only descriptor `[<n> digits]`, and
any other input to the length-only descriptor `[<n> characters]`; short or
coincidental substrings of the input can occur inside the descriptor text,
but an all-digit input of length at least 2 (such as a card number) never
appears in its own descriptor. -/
theorem sanitizeText_descriptor_spec (s : List Char) :
    (s = [] → sanitizeText s = []) ∧
    (s ≠ [] → s.all Char.isDigit = true →
      sanitizeText s = '[' :: digitChars s.length ++ ' ' :: "digits]".toList) ∧
    (s ≠ [] → s.all Char.isDigit = false →
      sanitizeText s = '[' :: digitChars s.length ++ ' ' :: "characters]".toList) ∧
    (s.all Char.isDigit = true → 2 ≤ s.length →
      jsIncludes (sanitizeText s) s = false) := by
  refine ⟨fun h => by simp [sanitizeText, h], fun h hd => by simp [sanitizeText, h, hd],
    fun h hd => by simp [sanitizeText, h, hd], fun hd hlen => ?_⟩
  have hne : s ≠ [] := by
    intro h; rw [h] at hlen; simp at hlen
  by_contra hinc
  have hinc' : jsIncludes (sanitizeText s) s = true := by
    cases h : jsIncludes (sanitizeText s) s with
    | false => exact absurd h hinc
    | true => rfl
  have hinf : s <:+: sanitizeText s := (jsIncludes_iff _ _).mp hinc'
  have hcount : s.countP Char.isDigit ≤ (sanitizeText s).countP Char.isDigit :=
    hinf.sublist.countP_le _
  have hall : s.countP Char.isDigit = s.length :=
    List.countP_eq_length.mpr (by simpa using List.all_eq_true.mp hd)
  have hbound := countP_isDigit_sanitizeText s hne
  have hlt := digitChars_length_lt s.length hlen
  omega

/-- C1 (witness): instantiating the amended claim at the spec's own
example, the 16-digit card number `4111111111111111`: the descriptor is
`[16 digits]` and the card number does not occur in it. -/
theorem sanitizeText_descriptor_spec_witness :
    sanitizeText ("4111111111111111".toList) = "[16 digits]".toList ∧
    jsIncludes (sanitizeText ("4111111111111111".toList)) "4111111111111111".toList = false := by
  refine ⟨?_, (sanitizeText_descriptor_spec ("4111111111111111".toList)).2.2.2 (by decide) (by decide)⟩
  rw [(sanitizeText_descriptor_spec ("4111111111111111".toList)).2.1 (by decide) (by decide)]
  decide

/-- C8 (counterexample): `redact` is not idempotent on its own output:
`redact("a") = "[1 characters]"` but
`redact(redact("a")) = "[14 characters]"`. -/
theorem sanitizeText_not_idempotent :
    sanitizeText (sanitizeText ['a']) ≠ sanitizeText ['a'] ∧
    sanitizeText ['a'] = "[1 characters]".toList ∧
    sanitizeText (sanitizeText ['a']) = "[14 characters]".toList := by
  refine ⟨?_, by decide, by decide⟩
  decide

/-- C8 (amended): `redact` is not idempotent; re-redacting the descriptor
of any non-empty input yields the `[<m> characters]` descriptor of the
descriptor's own length `m` (still a length-only descriptor, but in
general a different string).  Idempotence holds only in corner cases
(empty input, or a descriptor whose length coincides with the input's). -/
theorem sanitizeText_re_redact (s : List Char) (h : s ≠ []) :
    sanitizeText (sanitizeText s) =
      '[' :: digitChars (sanitizeText s).length ++ ' ' :: "characters]".toList := by
  obtain ⟨t, _, hs⟩ := sanitizeText_shape s h
  have hne : sanitizeText s ≠ [] := by rw [hs]; exact List.cons_ne_nil _ _
  have hnd : (sanitizeText s).all Char.isDigit = false := by
    rw [hs]
    simp [List.all_cons]
  conv_lhs => rw [sanitizeText]
  rw [if_neg hne, hnd]
  simp

/-- C8 (witness): the amended claim at input `"a"`: the second redaction
returns the characters descriptor of length 14, the length of
`"[1 characters]"`. -/
theorem sanitizeText_re_redact_witness :
    sanitizeText (sanitizeText ['a']) =
      '[' :: digitChars (sanitizeText ['a']).length ++ ' ' :: "characters]".toList :=
  sanitizeText_re_redact ['a'] (by decide)

/-- C9: the redactor's output is a function of exactly the input's length
and its digit-ness: two non-empty inputs of equal length that agree on
whether they consist entirely of decimal digits receive identical
descriptors, so the descriptor reveals nothing else about the input. -/
theorem sanitizeText_noninterference (s t : List Char)
    (hs : s ≠ []) (ht : t ≠ []) (hlen : s.length = t.length)
    (hdig : s.all Char.isDigit = t.all Char.isDigit) :
    sanitizeText s = sanitizeText t := by
  rw [sanitizeText, sanitizeText, hlen, hdig, if_neg hs, if_neg ht]

/-- C9 (witness): `"ab"` and `"zw"` — same length, both non-digits — get
the same descriptor. -/
theorem sanitizeText_noninterference_witness :
    sanitizeText ("ab".toList) = sanitizeText ("zw".toList) :=
  sanitizeText_noninterference ("ab".toList) ("zw".toList) (by decide) (by decide)
    (by decide) (by decide)

/-! ## Redactor: `isSensitiveField`

A capture target is a DOM-like element; only its `type`, `name` and
`autocomplete` attributes are consulted.  An absent attribute is `none`
(JS `undefined`, turned into `''` by `el.x || ''`). -/

structure Element where
  type : Option (List Char)
  name : Option (List Char)
  autocomplete : Option (List Char)

/-- JS `String.prototype.toLowerCase` (ASCII fragment). -/
def lower (s : List Char) : List Char := s.map Char.toLower

/-- Embedding of `isSensitiveField`, src/unnamed/part_001 lines 348-366 (identical
in src/unnamed/part_000 lines 264-282): vocabulary
card/cvv/password/ssn/secret/token. -/
def isSensitiveField : Option Element → Bool
  | none => false
  | some el =>
    let ty := lower (el.type.getD [])
    let nm := lower (el.name.getD [])
    let ac := lower (el.autocomplete.getD [])
    (ty == "password".toList) || (ty == "hidden".toList) ||
    jsIncludes nm ("card".toList) || jsIncludes nm ("cvv".toList) ||
    jsIncludes nm ("password".toList) || jsIncludes nm ("ssn".toList) ||
    jsIncludes nm ("secret".toList) || jsIncludes nm ("token".toList) ||
    "cc-".toList.isPrefixOf ac

/-- Embedding of `isSensitiveField` from src/src/index.js lines 6-21: this variant
checks only card/cvv/password/ssn and omits secret/token. -/
def isSensitiveFieldJs : Option Element → Bool
  | none => false
  | some el =>
    let ty := lower (el.type.getD [])
    let nm := lower (el.name.getD [])
    let ac := lower (el.autocomplete.getD [])
    (ty == "password".toList) || (ty == "hidden".toList) ||
    jsIncludes nm ("card".toList) || jsIncludes nm ("cvv".toList) ||
    jsIncludes nm ("password".toList) || jsIncludes nm ("ssn".toList) ||
    "cc-".toList.isPrefixOf ac

/-- C3 (counterexample): the six-word characterization fails for the
`src/src/index.js` implementation: a field named `"secret"` satisfies the
claim's condition (its name contains one of the six words) yet
`isSensitiveField` there returns `false`; the library implementation
returns `true` on the same target. -/
theorem isSensitiveFieldJs_misses_secret :
    isSensitiveFieldJs (some ⟨none, some ("secret".toList), none⟩) = false ∧
    isSensitiveField (some ⟨none, some ("secret".toList), none⟩) = true := by
  constructor <;> decide

/-- C3 (amended): for the Chyavan library's `isSensitiveField`
(src/unnamed/part_001, part_000) the characterization holds exactly:
a target is classified sensitive iff it is present and its lowercased
type equals `password` or `hidden`, or its lowercased name contains one
of the six words card/cvv/password/ssn/secret/token, or its lowercased
autocomplete starts with `cc-`; an absent target is never sensitive. -/
theorem isSensitiveField_characterization (tgt : Option Element) :
    isSensitiveField tgt = true ↔
      ∃ el, tgt = some el ∧
        (lower (el.type.getD []) = "password".toList ∨
         lower (el.type.getD []) = "hidden".toList ∨
         (∃ w ∈ ["card".toList, "cvv".toList, "password".toList, "ssn".toList,
                 "secret".toList, "token".toList],
            w <:+: lower (el.name.getD [])) ∨
         "cc-".toList <+: lower (el.autocomplete.getD [])) := by
  cases tgt with
  | none => simp [isSensitiveField]
  | some el =>
    simp only [isSensitiveField, Bool.or_eq_true, beq_iff_eq, jsIncludes_iff,
      List.isPrefixOf_iff_prefix, Option.some.injEq, exists_eq_left']
    simp only [List.mem_cons, List.not_mem_nil, or_false, exists_eq_or_imp,
      exists_eq_left]
    tauto

/-! ## Data model: configuration, events, tracker state

From src/unnamed/part_001.  `mode` is the raw configuration string;
`bufferSize`/`flushInterval` are JS numbers that the constructor stores
without validation, modelled as `Int`.  The `onFlush` callback is
modelled by its presence flag (`hasOnFlush`) plus, at each flush, the
behaviour of the call (throws / returns).  Event payloads are opaque
(`δ`). -/

structure Config where
  mode : String
  apiKey : Option String
  apiEndpoint : Option String
  debug : Bool
  bufferSize : Int
  flushInterval : Int
  hasOnFlush : Bool

structure Event (δ : Type) where
  type : String
  timestamp : Nat
  data : δ
  sessionId : Option String
  url : String
  userAgent : String

structure ChyavanState (δ : Type) where
  config : Config
  eventBuffer : List (Event δ)
  isTrackingEnabled : Bool
  flushTimerRunning : Bool
  sessionId : Option String

/-- Endpoint resolution `getEndpoint` (src/unnamed/part_001 lines 36-49): mode-dependent
endpoint resolution.  A present (`some`) string models a truthy JS
string. -/
def getEndpoint (c : Config) : Option String :=
  if c.mode = "console" then none
  else if c.mode = "self-hosted" ∧ c.apiEndpoint.isSome then c.apiEndpoint
  else
    match c.mode == "hosted", c.apiKey with
    | true, some key => some ("https://api.chyavan.io/track?key=" ++ key)
    | _, _ => c.apiEndpoint

/-- Embedding of `enable` (lines 84-97): idempotent; attaches listeners and, in
non-console mode, starts the periodic flush timer. -/
def enable (st : ChyavanState δ) : ChyavanState δ :=
  if st.isTrackingEnabled then st
  else
    ⟨st.config, st.eventBuffer, true,
      if st.config.mode = "console" then st.flushTimerRunning else true,
      st.sessionId⟩

/-- The state produced by `new Chyavan(options)` (lines 7-31 plus `init`,
lines 54-79).  `cfg` is the already-merged option object
(`{...defaults, ...options}`); the constructor re-resolves
`apiEndpoint` via `getEndpoint`, initializes the empty buffer, stores the
session id, and runs `init()`: console mode enables unconditionally,
other modes enable only when the consent predicate returns `true`; an
exception from the consent predicate is caught by `init`'s `try/catch`
and leaves tracking disabled. -/
def initChyavan (cfg : Config) (consent : Except String Bool) (sid : String) :
    ChyavanState δ :=
  let cfg' : Config := ⟨cfg.mode, cfg.apiKey, getEndpoint cfg, cfg.debug,
    cfg.bufferSize, cfg.flushInterval, cfg.hasOnFlush⟩
  let st0 : ChyavanState δ := ⟨cfg', [], false, false, some sid⟩
  if cfg'.mode = "console" then enable st0
  else
    match consent with
    | .ok true => enable st0
    | .ok false => st0
    | .error _ => st0

/-- The constructor as a fallible operation.  The source constructor
contains no validation and no `throw`: it cannot fail, so the embedding
always returns `.ok`. -/
def mkChyavan (cfg : Config) (consent : Except String Bool) (sid : String) :
    Except String (ChyavanState δ) :=
  .ok (initChyavan cfg consent sid)

/-- Embedding of `track` (lines 123-150): no-op when disabled; otherwise constructs
the event from ambient data, pushes it at the tail, and invokes `flush`
once iff the resulting size reaches `bufferSize`.  Returns the state
right after the push together with the number of `flush` invocations
this call makes. -/
def track (st : ChyavanState δ) (now : Nat) (url userAgent ty : String)
    (d : δ) : ChyavanState δ × Nat :=
  if st.isTrackingEnabled then
    let ev : Event δ := ⟨ty, now, d, st.sessionId, url, userAgent⟩
    let buf := st.eventBuffer ++ [ev]
    let flushes := if st.config.bufferSize ≤ (buf.length : Int) then 1 else 0
    (⟨st.config, buf, st.isTrackingEnabled, st.flushTimerRunning, st.sessionId⟩,
      flushes)
  else (st, 0)

/-- Behaviour of the single `fetch` a flush performs: the promise
rejects, or a response arrives with `ok` true/false. -/
inductive NetOutcome where
  | throwEx : NetOutcome
  | respond : Bool → NetOutcome
deriving DecidableEq

structure FlushResult (δ : Type) where
  buffer : List (Event δ)
  hookInvoked : Bool
  networkCalled : Bool
  threwToCaller : Bool

/-- Embedding of `flush` (lines 182-214) for one cycle.  `hookThrows` is whether the
configured `onFlush` callback throws when invoked; `net` is the network
behaviour; `arrivals` are the events `track` appends while the flush is
suspended at `await sendEvents` (the only suspension point — on the
console path and on the hook-throw path no await is reached, so no
arrivals are merged).  The `catch` block swallows every error and
`unshift`s the drained batch back to the front, so nothing is ever
thrown to the caller.  `sendEvents` (lines 219-240) returns without a
network call when no endpoint is configured and throws on a non-ok
response status. -/
def flush (st : ChyavanState δ) (hookThrows : Bool) (net : NetOutcome)
    (arrivals : List (Event δ)) : FlushResult δ :=
  if st.eventBuffer.length = 0 then ⟨st.eventBuffer, false, false, false⟩
  else
    let events := st.eventBuffer
    if st.config.mode = "console" then ⟨[], false, false, false⟩
    else if st.config.hasOnFlush ∧ hookThrows then
      ⟨events, true, false, false⟩
    else
      match st.config.apiEndpoint with
      | none => ⟨arrivals, st.config.hasOnFlush, false, false⟩
      | some _ =>
        match net with
        | .respond true => ⟨arrivals, st.config.hasOnFlush, true, false⟩
        | .respond false => ⟨events ++ arrivals, st.config.hasOnFlush, true, false⟩
        | .throwEx => ⟨events ++ arrivals, st.config.hasOnFlush, true, false⟩

/-- C4: whenever a flush of a non-empty batch fails — the `onFlush` hook
throws, the network call throws, or the response status is non-success —
the whole batch is reinserted at the front of the buffer in its original
order (followed by whatever was appended during the attempt), and no
error escapes to the caller. -/
theorem flush_failure_requeues (st : ChyavanState δ) (hookThrows : Bool)
    (net : NetOutcome) (arrivals : List (Event δ))
    (hne : st.eventBuffer.length ≠ 0)
    (hmode : st.config.mode ≠ "console")
    (hfail : (st.config.hasOnFlush ∧ hookThrows) ∨
      (st.config.apiEndpoint.isSome ∧
        (net = .throwEx ∨ net = .respond false))) :
    (flush st hookThrows net arrivals).threwToCaller = false ∧
    st.eventBuffer <+: (flush st hookThrows net arrivals).buffer ∧
    ((flush st hookThrows net arrivals).buffer = st.eventBuffer ++ arrivals ∨
     (flush st hookThrows net arrivals).buffer = st.eventBuffer) := by
  unfold flush
  rw [if_neg hne, if_neg hmode]
  by_cases hhook : st.config.hasOnFlush ∧ hookThrows
  · rw [if_pos hhook]
    exact ⟨rfl, List.prefix_rfl, Or.inr rfl⟩
  · rw [if_neg hhook]
    rcases hfail with h | ⟨hep, hnet⟩
    · exact absurd h hhook
    · obtain ⟨ep, hep'⟩ := Option.isSome_iff_exists.mp hep
      rw [hep']
      rcases hnet with rfl | rfl
      · exact ⟨rfl, List.prefix_append _ _, Or.inl rfl⟩
      · exact ⟨rfl, List.prefix_append _ _, Or.inl rfl⟩

-- concrete events for witnesses
def evA : Event Unit := ⟨"a", 1, (), some ("s"), "u", "ag"⟩

def evB : Event Unit := ⟨"b", 2, (), some ("s"), "u", "ag"⟩

def evC : Event Unit := ⟨"c", 3, (), some ("s"), "u", "ag"⟩

def evD : Event Unit := ⟨"d", 4, (), some ("s"), "u", "ag"⟩

def hostedState : ChyavanState Unit :=
  ⟨⟨"self-hosted", none, some ("/track"), false, 20, 5000, false⟩,
    [evA, evB, evC], true, true, some ("s")⟩

/-- C4 (witness): a failed flush (HTTP non-success) of the batch
`[A, B, C]`, with `D` arriving during the attempt, throws nothing and
leaves the buffer `[A, B, C, D]`. -/
theorem flush_failure_requeues_witness :
    (flush hostedState false (NetOutcome.respond false) [evD]).threwToCaller
        = false ∧
    hostedState.eventBuffer <+:
      (flush hostedState false (NetOutcome.respond false) [evD]).buffer ∧
    ((flush hostedState false (NetOutcome.respond false) [evD]).buffer
        = hostedState.eventBuffer ++ [evD] ∨
     (flush hostedState false (NetOutcome.respond false) [evD]).buffer
        = hostedState.eventBuffer) :=
  flush_failure_requeues hostedState false (NetOutcome.respond false) [evD]
    (by simp [hostedState]) (by simp [hostedState])
    (Or.inr ⟨rfl, Or.inr rfl⟩)

/-- C5: while tracking is enabled, `track` appends the freshly built
event at the tail of the buffer, and it invokes `flush` exactly once iff
the resulting buffer size reaches `bufferCapacity` — and in no case more
than once. -/
theorem track_appends_and_triggers (st : ChyavanState δ) (now : Nat)
    (url userAgent ty : String) (d : δ)
    (hen : st.isTrackingEnabled = true) :
    (track st now url userAgent ty d).1.eventBuffer =
      st.eventBuffer ++ [⟨ty, now, d, st.sessionId, url, userAgent⟩] ∧
    ((track st now url userAgent ty d).2 = 1 ↔
      st.config.bufferSize ≤ (st.eventBuffer.length + 1 : Int)) ∧
    (track st now url userAgent ty d).2 ≤ 1 := by
  simp only [track, hen, if_true]
  refine ⟨trivial, ?_, ?_⟩
  · simp only [List.length_append, List.length_cons, List.length_nil]
    split <;> rename_i h
    · simpa using h
    · constructor
      · intro h1; exact absurd h1 (by omega)
      · intro hle
        exact absurd hle (by push_cast at h ⊢; omega)
  · split <;> omega

/-- C5 (witness): with capacity 3 and two buffered events, a third
`track` appends at the tail and triggers exactly one flush attempt. -/
theorem track_appends_and_triggers_witness :
    (track (⟨⟨"self-hosted", none, some ("/track"), false, 3, 5000, false⟩,
        [evA, evB], true, true, some ("s")⟩ : ChyavanState Unit)
      5 "u" "ag" "c" ()).1.eventBuffer =
      [evA, evB] ++ [⟨"c", 5, (), some ("s"), "u", "ag"⟩] ∧
    ((track (⟨⟨"self-hosted", none, some ("/track"), false, 3, 5000, false⟩,
        [evA, evB], true, true, some ("s")⟩ : ChyavanState Unit)
      5 "u" "ag" "c" ()).2 = 1 ↔
      (3 : Int) ≤ (([evA, evB] : List (Event Unit)).length + 1 : Int)) ∧
    (track (⟨⟨"self-hosted", none, some ("/track"), false, 3, 5000, false⟩,
        [evA, evB], true, true, some ("s")⟩ : ChyavanState Unit)
      5 "u" "ag" "c" ()).2 ≤ 1 :=
  track_appends_and_triggers _ 5 "u" "ag" "c" () rfl

/-- Whether a construction attempt produced a working instance. -/
def constructionSucceeds (e : Except String (ChyavanState δ)) : Bool :=
  match e with
  | .ok _ => true
  | .error _ => false

def invalidCfg : Config := ⟨"self-hosted", none, some ("/track"), false, 0, -100, false⟩

/-- C7 (counterexample): construction does NOT fail fast on invalid
configuration: with `bufferSize = 0` and `flushInterval = -100` the
constructor still produces a working instance instead of raising a
configuration error. -/
theorem constructor_accepts_invalid_config :
    constructionSucceeds (mkChyavan (δ := Unit) invalidCfg (.ok true) "sid") = true ∧
    ¬(0 < invalidCfg.bufferSize) ∧ ¬(0 < invalidCfg.flushInterval) :=
  ⟨rfl, by decide, by decide⟩

theorem enable_config (st : ChyavanState δ) : (enable st).config = st.config := by
  unfold enable
  split <;> rfl

theorem initChyavan_config (cfg : Config) (consent : Except String Bool)
    (sid : String) :
    (initChyavan (δ := δ) cfg consent sid).config =
      ⟨cfg.mode, cfg.apiKey, getEndpoint cfg, cfg.debug, cfg.bufferSize,
        cfg.flushInterval, cfg.hasOnFlush⟩ := by
  unfold initChyavan
  dsimp only
  split <;> (try split) <;> first | rw [enable_config] | rfl

/-- C7 (amended): the constructor performs no validation at all: for every
configuration — `bufferCapacity` and `flushIntervalMs` included, whatever
their values — and even for a consent predicate that throws, construction
succeeds and stores the capacity and interval unchanged. -/
theorem mkChyavan_never_fails (cfg : Config) (consent : Except String Bool)
    (sid : String) :
    mkChyavan (δ := Unit) cfg consent sid =
      .ok (initChyavan cfg consent sid) ∧
    (initChyavan (δ := Unit) cfg consent sid).config.bufferSize =
      cfg.bufferSize ∧
    (initChyavan (δ := Unit) cfg consent sid).config.flushInterval =
      cfg.flushInterval := by
  refine ⟨rfl, ?_, ?_⟩ <;> rw [initChyavan_config]

/-- C10: in `console` operating mode the resolved delivery endpoint is
`null`, and `flush` empties the buffer and returns without ever calling
the network send or the `onFlush` hook: the drained batch is silently
discarded, not delivered and not requeued. -/
theorem console_mode_discards (cfg : Config) (st : ChyavanState δ)
    (hookThrows : Bool) (net : NetOutcome) (arrivals : List (Event δ))
    (hcfg : cfg.mode = "console") (hst : st.config.mode = "console") :
    getEndpoint cfg = none ∧
    (flush st hookThrows net arrivals).buffer = [] ∧
    (flush st hookThrows net arrivals).hookInvoked = false ∧
    (flush st hookThrows net arrivals).networkCalled = false ∧
    (flush st hookThrows net arrivals).threwToCaller = false := by
  refine ⟨by simp [getEndpoint, hcfg], ?_⟩
  unfold flush
  by_cases hb : st.eventBuffer.length = 0
  · rw [if_pos hb]
    exact ⟨List.length_eq_zero.mp hb, rfl, rfl, rfl⟩
  · rw [if_neg hb, if_pos hst]
    exact ⟨rfl, rfl, rfl, rfl⟩

def consoleState : ChyavanState Unit :=
  ⟨⟨"console", none, none, false, 20, 5000, true⟩,
    [evA, evB], true, false, some ("s")⟩

/-- C10 (witness): a console-mode tracker with two buffered events and an
`onFlush` hook configured: flushing discards both events, skips the hook
and the network, and throws nothing; the endpoint resolves to `null`. -/
theorem console_mode_discards_witness :
    getEndpoint consoleState.config = none ∧
    (flush consoleState true NetOutcome.throwEx [evD]).buffer = [] ∧
    (flush consoleState true NetOutcome.throwEx [evD]).hookInvoked = false ∧
    (flush consoleState true NetOutcome.throwEx [evD]).networkCalled = false ∧
    (flush consoleState true NetOutcome.throwEx [evD]).threwToCaller = false :=
  console_mode_discards consoleState.config consoleState true
    NetOutcome.throwEx [evD] rfl rfl

/-! ## Debounce scheduler (src/unnamed/part_001 lines 384-390)

```js
debounce(fn, delay) {
  let timeout;
  return function (...args) {
    clearTimeout(timeout);
    timeout = setTimeout(() => fn.apply(this, args), delay);
  };
}
```

One wrapper instance holds at most one pending timer
(`some (fireTime, payload)`).  A call at time `t` clears any pending
timer and arms a new one at `t + delay` with the latest payload.
`debRun` replays a time-ordered list of calls against the event loop: a
pending timer whose fire time has been reached before (or at) the next
call fires and emits; after the last call, a still-pending timer fires.
The emissions are returned as `(fireTime, payload)` pairs. -/

def debRun (delay : Nat) : List (Nat × α) → Option (Nat × α) → List (Nat × α)
  | [], pending =>
    match pending with
    | none => []
    | some e => [e]
  | (t, p) :: rest, pending =>
    match pending with
    | some (ft, q) =>
      if ft ≤ t then (ft, q) :: debRun delay rest (some (t + delay, p))
      else debRun delay rest (some (t + delay, p))
    | none => debRun delay rest (some (t + delay, p))

/-- All downstream emissions produced by a burst of calls (time-ordered
`(time, payload)` pairs) against a fresh debounced wrapper. -/
def debounceEmissions (delay : Nat) (calls : List (Nat × α)) : List (Nat × α) :=
  debRun delay calls none

theorem debRun_pending (delay : Nat) :
    ∀ (calls : List (Nat × α)) (t : Nat) (p : α),
      List.Chain (fun a b => b.1 < a.1 + delay) (t, p) calls →
      debRun delay calls (some (t + delay, p)) =
        [((calls.getLastD (t, p)).1 + delay, (calls.getLastD (t, p)).2)] := by
  intro calls
  induction calls with
  | nil => intro t p _; rfl
  | cons c rest ih =>
    intro t p h
    obtain ⟨t2, p2⟩ := c
    rcases h with _ | ⟨hrel, hchain⟩
    have hlt : ¬(t + delay ≤ t2) := by
      simp only at hrel
      omega
    simp only [debRun, if_neg hlt, List.getLastD_cons]
    exact ih t2 p2 hchain

/-- C6: a burst of calls to a debounced function in which every call
arrives strictly before the previous pending timer would fire produces
exactly one downstream emission, carrying the payload of the last call,
delivered at (last call time) + delay. -/
theorem debounce_burst (delay t : Nat) (p : α) (calls : List (Nat × α))
    (h : List.Chain (fun a b => b.1 < a.1 + delay) (t, p) calls) :
    debounceEmissions delay ((t, p) :: calls) =
      [((calls.getLastD (t, p)).1 + delay, (calls.getLastD (t, p)).2)] := by
  unfold debounceEmissions
  simp only [debRun]
  exact debRun_pending delay calls t p h

/-- C6 (witness): calls at t = 0, 100, 150, 200 with delay 400 collapse
to the single emission of the final payload at t = 600. -/
theorem debounce_burst_witness :
    debounceEmissions 400
        [(0, "p0"), (100, "p1"), (150, "p2"), (200, "p3")] =
      [(600, "p3")] := by
  have h := debounce_burst 400 0 "p0" [(100, "p1"), (150, "p2"), (200, "p3")]
    (List.Chain.cons (by omega) (List.Chain.cons (by omega)
      (List.Chain.cons (by omega) List.Chain.nil)))
  simpa using h

/-! ## Scroll tracking (src/unnamed/part_001 lines 327-343)

```js
const scrollTop = window.pageYOffset || document.documentElement.scrollTop;
const scrollLeft = window.pageXOffset || document.documentElement.scrollLeft;
const maxScrollTop = document.documentElement.scrollHeight - window.innerHeight;
const scrollPercentage = Math.round((scrollTop / maxScrollTop) * 100);
this.track('scroll', { x: scrollLeft, y: scrollTop, percentage: scrollPercentage });
```

The geometry values are integers, but `/` is IEEE division, so the
percentage can be `NaN` or an infinity.  `JSNum` models a JavaScript
number as an exact rational or one of the three special values (`-0` is
identified with `0`; no rounding error occurs in the magnitudes involved
here). -/

inductive JSNum where
  | num : Rat → JSNum
  | nan : JSNum
  | posInf : JSNum
  | negInf : JSNum
deriving DecidableEq

/-- JS `/` on numbers. -/
def jsDiv : JSNum → JSNum → JSNum
  | .nan, _ => .nan
  | _, .nan => .nan
  | .num a, .num b =>
    if b = 0 then
      if a = 0 then .nan else if 0 < a then .posInf else .negInf
    else .num (a / b)
  | .posInf, .num b => if 0 ≤ b then .posInf else .negInf
  | .negInf, .num b => if 0 ≤ b then .negInf else .posInf
  | .num _, .posInf => .num 0
  | .num _, .negInf => .num 0
  | _, _ => .nan

/-- JS `*` on numbers. -/
def jsMul : JSNum → JSNum → JSNum
  | .nan, _ => .nan
  | _, .nan => .nan
  | .num a, .num b => .num (a * b)
  | .posInf, .num b => if 0 < b then .posInf else if b < 0 then .negInf else .nan
  | .negInf, .num b => if 0 < b then .negInf else if b < 0 then .posInf else .nan
  | .num a, .posInf => if 0 < a then .posInf else if a < 0 then .negInf else .nan
  | .num a, .negInf => if 0 < a then .negInf else if a < 0 then .posInf else .nan
  | .posInf, .posInf => .posInf
  | .posInf, .negInf => .negInf
  | .negInf, .posInf => .negInf
  | .negInf, .negInf => .posInf

/-- JS `Math.round`: half-up toward positive infinity on finite values,
identity on `NaN` and infinities. -/
def jsRound : JSNum → JSNum
  | .num q => .num ((q + 1 / 2).floor : Int)
  | x => x

/-- JS `a || b` on integer-valued numbers: `0` is falsy. -/
def jsOrInt (a b : Int) : Int := if a = 0 then b else a

structure ScrollEnv where
  pageYOffset : Int
  docScrollTop : Int
  pageXOffset : Int
  docScrollLeft : Int
  scrollHeight : Int
  innerHeight : Int

structure ScrollData where
  x : Int
  y : Int
  percentage : JSNum

/-- The payload the (debounced) scroll handler passes to
`track('scroll', …)`. -/
def scrollEventData (env : ScrollEnv) : ScrollData :=
  let scrollTop := jsOrInt env.pageYOffset env.docScrollTop
  let scrollLeft := jsOrInt env.pageXOffset env.docScrollLeft
  let maxScrollTop := env.scrollHeight - env.innerHeight
  ⟨scrollLeft, scrollTop,
    jsRound (jsMul (jsDiv (.num (scrollTop : Rat)) (.num (maxScrollTop : Rat)))
      (.num 100))⟩

/-- C2 (failing input): with the viewport as tall as the document
(`scrollHeight = innerHeight = 600`, scroll position 0) the maximum
scrollable extent is 0 and the handler computes
`Math.round((0 / 0) * 100) = NaN`, not the required 0: the guard the
spec demands does not exist in the code. -/
theorem scroll_percentage_nan_at_zero_extent :
    (scrollEventData ⟨0, 0, 0, 0, 600, 600⟩).percentage = JSNum.nan ∧
    JSNum.nan ≠ JSNum.num 0 := by
  constructor
  · rfl
  · intro h
    cases h

end Chyavan
